import Mathlib

/-!
Shallow embedding of the session lifecycle and conversation-state manager
of the voice API server (`index.js`), together with the voice-utility
helpers it calls (`voice.util.js`).  The in-memory `sessions` Map is
modelled as a partial map from session id to session state; each HTTP
handler becomes a pure function from the store and the request inputs
(plus oracles for the results of the external collaborators) to a
response, the new store, and the list of external collaborators invoked.
-/

namespace Medvora

/-- One turn of `conversationHistory`: an object with `role` and `content`
string fields, as pushed by the handlers in `index.js`. -/
structure Turn where
  role : String
  content : String
  deriving DecidableEq, Repr

/-- A session value as stored in the `sessions` Map by `POST /api/voice/init`
(`index.js` lines 120-126): `gender`, `osce_id`, `conversationHistory`,
`active`, `lastActivity`. -/
structure Session where
  gender : String
  osce_id : String
  conversationHistory : List Turn
  active : Bool
  lastActivity : Nat
  deriving DecidableEq, Repr

/-- The process-wide `sessions` Map (`index.js` line 51), modelled as a
partial map from session id to session. -/
abbrev Store : Type := String → Option Session

/-- The store at server boot: no sessions. -/
def emptyStore : Store := fun _ => none

/-- `sessions.get(id)`. -/
def storeGet (st : Store) (id : String) : Option Session := st id

/-- `sessions.set(id, s)`: binds `id` to `s`, replacing any previous binding. -/
def storeSet (st : Store) (id : String) (s : Session) : Store :=
  fun k => if k = id then some s else st k

/-- `sessions.delete(id)`. -/
def storeDelete (st : Store) (id : String) : Store :=
  fun k => if k = id then none else st k

/-- The idle threshold `maxAge = 30 * 60 * 1000` ms (`index.js` line 60). -/
def maxAge : Nat := 30 * 60 * 1000

/-- The sweep cadence `5 * 60 * 1000` ms of `setInterval(cleanupOldSessions, …)`
(`index.js` line 70). -/
def sweepIntervalMs : Nat := 5 * 60 * 1000

/-- `cleanupOldSessions` (`index.js` lines 58-68): delete every session whose
idle time `now - lastActivity` exceeds `maxAge`. -/
def cleanupOldSessions (st : Store) (now : Nat) : Store :=
  fun k =>
    match st k with
    | some s => if now - s.lastActivity > maxAge then none else some s
    | none => none

/-- JavaScript falsiness of an optional request string field: absent or the
empty string (the handlers test `if (!field)`). -/
def isFalsy : Option String → Bool
  | none => true
  | some s => s.isEmpty

/-- `getPatientPrompt` (`voice.util.js`): the system instruction payload,
ending with the serialized case description.  The fixed behaviour-rule text
between the two fragments is elided; no claim inspects it. -/
def getPatientPrompt (caseDescription : String) : String :=
  "You are a virtual patient in a clinical simulation. Use only the facts in the provided patient profile.\n\nHere is your patient profile:\n"
    ++ caseDescription

/-- The possible values of the JavaScript property read
`ELEVENLABS_VOICES[gender]`: an own data property holding a voice id string,
a member inherited from `Object.prototype` (a function or object — truthy,
but not a voice id), or `undefined` (falsy). -/
inductive JsPropValue
  | voice (id : String)
  | protoMember
  | undef
  deriving DecidableEq, Repr

/-- The property names a plain object literal inherits from
`Object.prototype`; reading any of them on `ELEVENLABS_VOICES` yields a
truthy function or object, not `undefined`. -/
def objectPrototypeKeys : List String :=
  ["constructor", "hasOwnProperty", "isPrototypeOf", "propertyIsEnumerable",
   "toLocaleString", "toString", "valueOf", "__defineGetter__",
   "__defineSetter__", "__lookupGetter__", "__lookupSetter__", "__proto__"]

/-- The property read `ELEVENLABS_VOICES[gender]` on the object literal of
`voice.util.js`, whose own keys are `Male` and `Female`: an own key yields
its voice id; any other name traverses the prototype chain, so an
`Object.prototype` member name yields that inherited member and only a name
absent from both yields `undefined`. -/
def ELEVENLABS_VOICES (gender : String) : JsPropValue :=
  if gender = "Male" then JsPropValue.voice "pNInz6obpgDQGcFmaJgB"
  else if gender = "Female" then JsPropValue.voice "EXAVITQu4vr4xnSDxMaL"
  else if gender ∈ objectPrototypeKeys then JsPropValue.protoMember
  else JsPropValue.undef

/-- The voice value `generateSpeech` uses:
`ELEVENLABS_VOICES[gender] || ELEVENLABS_VOICES.Male` (`voice.util.js`).
The `||` keeps any truthy lookup result — an inherited `Object.prototype`
member included — and substitutes the Male voice only for `undefined`. -/
def generateSpeechVoiceId (gender : String) : JsPropValue :=
  match ELEVENLABS_VOICES gender with
  | JsPropValue.undef => JsPropValue.voice "pNInz6obpgDQGcFmaJgB"
  | v => v

/-- The external collaborators a handler may invoke. -/
inductive Collab
  | transcribeAudio
  | getChatCompletion
  | generateSpeech
  deriving DecidableEq, Repr

/-- Responses of `POST /api/voice/init`. -/
inductive InitResp
  | missingParams
  | osceNotFound
  | success (session_id : String)
  deriving DecidableEq, Repr

/-- `POST /api/voice/init` (`index.js` lines 80-142).  `caseLookup` is the
resolved `case_description` (after both database queries), `none` when the
OSCE case is not found; `freshId` is the generated uuid. -/
def initHandler (st : Store) (gender osce_id : Option String)
    (caseLookup : Option String) (freshId : String) (now : Nat) :
    InitResp × Store :=
  if isFalsy gender || isFalsy osce_id then (InitResp.missingParams, st)
  else
    match caseLookup with
    | none => (InitResp.osceNotFound, st)
    | some caseDescription =>
        (InitResp.success freshId,
         storeSet st freshId
           { gender := gender.getD ""
             osce_id := osce_id.getD ""
             conversationHistory := [⟨"system", getPatientPrompt caseDescription⟩]
             active := false
             lastActivity := now })

/-- The fixed greeting of `POST /api/voice/start` (`index.js` line 168). -/
def initialGreeting : String := "Hello Doctor, I'm here for my appointment."

/-- Responses of `POST /api/voice/start`. -/
inductive StartResp
  | missingSessionId
  | sessionNotFound
  | upstreamError (msg : String)
  | success (audio_base64 text : String)
  deriving DecidableEq, Repr

/-- `POST /api/voice/start` (`index.js` lines 144-192).  `speechResult` is the
oracle for `generateSpeech`; the session is mutated (`active := true`,
`lastActivity := now`, greeting appended) before the collaborator is called,
so the mutation persists even when synthesis fails. -/
def startHandler (st : Store) (session_id : Option String) (now : Nat)
    (speechResult : Except String String) :
    StartResp × Store × List Collab :=
  if isFalsy session_id then (StartResp.missingSessionId, st, [])
  else
    let sid := session_id.getD ""
    match storeGet st sid with
    | none => (StartResp.sessionNotFound, st, [])
    | some session =>
        let session1 : Session :=
          { session with
            active := true
            lastActivity := now
            conversationHistory :=
              session.conversationHistory ++ [⟨"assistant", initialGreeting⟩] }
        let st1 := storeSet st sid session1
        match speechResult with
        | .error e => (StartResp.upstreamError e, st1, [Collab.generateSpeech])
        | .ok audio =>
            (StartResp.success audio initialGreeting, st1, [Collab.generateSpeech])

/-- Responses of `POST /api/voice/process`. -/
inductive ProcessResp
  | missingSessionId
  | noAudioFile
  | sessionNotFound
  | sessionNotActive
  | upstreamError (msg : String)
  | success (transcription response_text audio_base64 : String)
  deriving DecidableEq, Repr

/-- `POST /api/voice/process` (`index.js` lines 194-265).  Validation order of
the source: missing `session_id`, missing audio file, session lookup, active
check; then `lastActivity` is refreshed and the three collaborators run in
sequence, the transcript being mutated between the calls.  `file` is the
uploaded buffer; the three `Except` arguments are the collaborator oracles.
The third component of the result lists the collaborators invoked. -/
def processHandler (st : Store) (session_id : Option String)
    (file : Option (List Nat)) (now : Nat)
    (transcribeResult chatResult speechResult : Except String String) :
    ProcessResp × Store × List Collab :=
  if isFalsy session_id then (ProcessResp.missingSessionId, st, [])
  else if file = none then (ProcessResp.noAudioFile, st, [])
  else
    let sid := session_id.getD ""
    match storeGet st sid with
    | none => (ProcessResp.sessionNotFound, st, [])
    | some session =>
        if !session.active then (ProcessResp.sessionNotActive, st, [])
        else
          let session1 : Session := { session with lastActivity := now }
          let st1 := storeSet st sid session1
          match transcribeResult with
          | .error e =>
              (ProcessResp.upstreamError e, st1, [Collab.transcribeAudio])
          | .ok transcription =>
              let session2 : Session :=
                { session1 with
                  conversationHistory :=
                    session1.conversationHistory ++ [⟨"user", transcription⟩] }
              let st2 := storeSet st1 sid session2
              match chatResult with
              | .error e =>
                  (ProcessResp.upstreamError e, st2,
                   [Collab.transcribeAudio, Collab.getChatCompletion])
              | .ok aiResponse =>
                  let session3 : Session :=
                    { session2 with
                      conversationHistory :=
                        session2.conversationHistory ++ [⟨"assistant", aiResponse⟩] }
                  let st3 := storeSet st2 sid session3
                  match speechResult with
                  | .error e =>
                      (ProcessResp.upstreamError e, st3,
                       [Collab.transcribeAudio, Collab.getChatCompletion,
                        Collab.generateSpeech])
                  | .ok audio =>
                      (ProcessResp.success transcription aiResponse audio, st3,
                       [Collab.transcribeAudio, Collab.getChatCompletion,
                        Collab.generateSpeech])

/-- Responses of `POST /api/voice/stop`. -/
inductive StopResp
  | missingSessionId
  | sessionNotFound
  | success
  deriving DecidableEq, Repr

/-- `POST /api/voice/stop` (`index.js` lines 267-301). -/
def stopHandler (st : Store) (session_id : Option String) : StopResp × Store :=
  if isFalsy session_id then (StopResp.missingSessionId, st)
  else
    let sid := session_id.getD ""
    match storeGet st sid with
    | none => (StopResp.sessionNotFound, st)
    | some _ => (StopResp.success, storeDelete st sid)

/-- Responses of `POST /api/voice/history`. -/
inductive HistoryResp
  | missingSessionId
  | sessionNotFound
  | success (history : List Turn)
  deriving DecidableEq, Repr

/-- `POST /api/voice/history` (`index.js` lines 303-340): filters out the
system turn and projects each remaining turn to its role and content fields
(the identity on our `Turn`).  It never writes to the session. -/
def historyHandler (st : Store) (session_id : Option String) :
    HistoryResp × Store :=
  if isFalsy session_id then (HistoryResp.missingSessionId, st)
  else
    let sid := session_id.getD ""
    match storeGet st sid with
    | none => (HistoryResp.sessionNotFound, st)
    | some session =>
        (HistoryResp.success
          (session.conversationHistory.filter (fun msg => msg.role != "system")),
         st)

/-- One request to the server, with all its inputs and collaborator oracles,
plus the sweeper tick; used to describe the stores reachable from boot. -/
inductive Op
  | init (gender osce_id caseLookup : Option String) (freshId : String) (now : Nat)
  | start (session_id : Option String) (now : Nat)
      (speechResult : Except String String)
  | process (session_id : Option String) (file : Option (List Nat)) (now : Nat)
      (transcribeResult chatResult speechResult : Except String String)
  | stop (session_id : Option String)
  | history (session_id : Option String)
  | sweep (now : Nat)

/-- The store after one operation. -/
def applyOp (st : Store) : Op → Store
  | .init g o c f n => (initHandler st g o c f n).2
  | .start sid n sp => (startHandler st sid n sp).2.1
  | .process sid f n tr ch sp => (processHandler st sid f n tr ch sp).2.1
  | .stop sid => (stopHandler st sid).2
  | .history sid => (historyHandler st sid).2
  | .sweep n => cleanupOldSessions st n

/-- Stores reachable from server boot by any sequence of requests and sweeps. -/
inductive Reachable : Store → Prop
  | boot : Reachable emptyStore
  | step (st : Store) (op : Op) : Reachable st → Reachable (applyOp st op)

/-- `uuidv4()` is assumed collision-free: an `init` whose fresh id is already
bound could overwrite a live session, so transcript-append statements assume
the fresh id is unbound.  Every other operation is unconditional. -/
def opFreshOk (st : Store) : Op → Prop
  | .init _ _ _ freshId _ => storeGet st freshId = none
  | _ => True

/-- A concrete system prompt, for the concrete witnesses below. -/
def demoPrompt : String := getPatientPrompt "demo case description"

/-- A freshly initialized session (state Initialized: `active = false`). -/
def demoSession : Session :=
  { gender := "Male"
    osce_id := "osce1"
    conversationHistory := [⟨"system", demoPrompt⟩]
    active := false
    lastActivity := 0 }

/-- The same session after `start`: `active = true`. -/
def demoActiveSession : Session :=
  { demoSession with
    active := true
    conversationHistory :=
      demoSession.conversationHistory ++ [⟨"assistant", initialGreeting⟩] }

/-- A store holding one Initialized session under id `s1`. -/
def demoStore : Store := storeSet emptyStore "s1" demoSession

/-- A store holding one Active session under id `s1`. -/
def demoActiveStore : Store := storeSet emptyStore "s1" demoActiveSession

/-- An Active session after one full exchange: system, greeting, user,
assistant. -/
def demoFullSession : Session :=
  { gender := "Female"
    osce_id := "osce2"
    conversationHistory :=
      [⟨"system", demoPrompt⟩, ⟨"assistant", initialGreeting⟩,
       ⟨"user", "q"⟩, ⟨"assistant", "r"⟩]
    active := true
    lastActivity := 4 }

/-- A store holding `demoFullSession` under id `s2`. -/
def demoFullStore : Store := storeSet emptyStore "s2" demoFullSession

/-- A concrete successful init request, for the reachability witnesses. -/
def demoInitOp : Op :=
  Op.init (some "Male") (some "osce1") (some "demo case description") "s1" 0

/-- The store after one successful start call (speech synthesis succeeding)
on session `sid` at time `now`. -/
def startOnceStore (sid : String) (now : Nat) (st : Store) : Store :=
  (startHandler st (some sid) now (Except.ok "audio")).2.1

/-- The store after `n` successive successful start calls on session `sid`. -/
def iterStart (sid : String) (now : Nat) : Nat → Store → Store
  | 0, st => st
  | n + 1, st => iterStart sid now n (startOnceStore sid now st)

theorem storeGet_set_self (st : Store) (id : String) (s : Session) :
    storeGet (storeSet st id s) id = some s := by
  simp [storeGet, storeSet]

theorem storeGet_set_ne (st : Store) (id k : String) (s : Session)
    (h : k ≠ id) : storeGet (storeSet st id s) k = storeGet st k := by
  simp [storeGet, storeSet, h]

theorem storeGet_delete_self (st : Store) (id : String) :
    storeGet (storeDelete st id) id = none := by
  simp [storeGet, storeDelete]

theorem storeGet_cleanup (st : Store) (now : Nat) (id : String) :
    storeGet (cleanupOldSessions st now) id =
      match storeGet st id with
      | some s => if now - s.lastActivity > maxAge then none else some s
      | none => none := rfl

/-- Claim C1: process requests are validated strictly in order — a falsy
`session_id` or a missing audio file is rejected before (and regardless of)
any session lookup; an unknown id is rejected before the Active-state check;
and a session in Initialized state (`active = false`) is rejected with
SessionNotActive, with the store unchanged and no external collaborator
(transcription, chat completion, speech synthesis) invoked. -/
theorem C1_process_validation_order (st : Store) (now : Nat)
    (tr ch sp : Except String String) :
    (∀ sid_opt file, isFalsy sid_opt = true →
        processHandler st sid_opt file now tr ch sp
          = (ProcessResp.missingSessionId, st, [])) ∧
    (∀ sid, sid.isEmpty = false →
        processHandler st (some sid) none now tr ch sp
          = (ProcessResp.noAudioFile, st, [])) ∧
    (∀ sid buf, sid.isEmpty = false → storeGet st sid = none →
        processHandler st (some sid) (some buf) now tr ch sp
          = (ProcessResp.sessionNotFound, st, [])) ∧
    (∀ sid buf s, sid.isEmpty = false → storeGet st sid = some s →
        s.active = false →
        processHandler st (some sid) (some buf) now tr ch sp
          = (ProcessResp.sessionNotActive, st, [])) := by
  refine ⟨?_, ?_, ?_, ?_⟩
  · intro sid_opt file h
    simp [processHandler, h]
  · intro sid h
    simp [processHandler, isFalsy, h]
  · intro sid buf h hget
    simp [processHandler, isFalsy, h, hget]
  · intro sid buf s h hget hact
    simp [processHandler, isFalsy, h, hget, hact]

/-- Witness for C1: on a store holding one Initialized session, a well-formed
process request is rejected with SessionNotActive, no collaborator invoked. -/
theorem C1_process_validation_order_witness :
    processHandler demoStore (some "s1") (some [0]) 7
        (Except.ok "t") (Except.ok "a") (Except.ok "v")
      = (ProcessResp.sessionNotActive, demoStore, []) :=
  (C1_process_validation_order demoStore 7 (Except.ok "t") (Except.ok "a")
      (Except.ok "v")).2.2.2 "s1" [0] demoSession (by decide) (by decide)
    (by decide)

/-- Claim C2: a successful start appends exactly one turn — the assistant
greeting "Hello Doctor, I'm here for my appointment." — and a successful
process appends exactly two turns, the user turn with the transcription then
the assistant turn with the completion, in that order. -/
theorem C2_transcript_appends (st : Store) (sid : String) (s : Session)
    (now : Nat) (audio t a v : String) (buf : List Nat)
    (hsid : sid.isEmpty = false) (hget : storeGet st sid = some s) :
    ((startHandler st (some sid) now (Except.ok audio)).1
        = StartResp.success audio initialGreeting ∧
      ∃ s', storeGet (startHandler st (some sid) now (Except.ok audio)).2.1 sid
          = some s' ∧
        s'.conversationHistory
          = s.conversationHistory ++ [⟨"assistant", initialGreeting⟩]) ∧
    (s.active = true →
      (processHandler st (some sid) (some buf) now (Except.ok t) (Except.ok a)
          (Except.ok v)).1 = ProcessResp.success t a v ∧
      ∃ s', storeGet (processHandler st (some sid) (some buf) now (Except.ok t)
            (Except.ok a) (Except.ok v)).2.1 sid = some s' ∧
        s'.conversationHistory
          = s.conversationHistory ++ [⟨"user", t⟩, ⟨"assistant", a⟩]) := by
  constructor
  · constructor
    · simp [startHandler, isFalsy, hsid, hget]
    · refine ⟨{ s with
          active := true
          lastActivity := now
          conversationHistory :=
            s.conversationHistory ++ [⟨"assistant", initialGreeting⟩] }, ?_, rfl⟩
      simp [startHandler, isFalsy, hsid, hget, storeGet_set_self]
  · intro hact
    constructor
    · simp [processHandler, isFalsy, hsid, hget, hact]
    · refine ⟨{ s with
          lastActivity := now
          conversationHistory :=
            (s.conversationHistory ++ [⟨"user", t⟩]) ++ [⟨"assistant", a⟩] },
        ?_, by simp⟩
      simp [processHandler, isFalsy, hsid, hget, hact, storeGet_set_self]

/-- Witness for C2: concrete start and process calls on the demo stores. -/
theorem C2_transcript_appends_witness :
    ((startHandler demoStore (some "s1") 5 (Except.ok "au")).1
        = StartResp.success "au" initialGreeting ∧
      ∃ s', storeGet (startHandler demoStore (some "s1") 5
            (Except.ok "au")).2.1 "s1" = some s' ∧
        s'.conversationHistory
          = demoSession.conversationHistory ++ [⟨"assistant", initialGreeting⟩]) ∧
    (demoActiveSession.active = true →
      (processHandler demoActiveStore (some "s1") (some [0]) 6 (Except.ok "q")
          (Except.ok "r") (Except.ok "au2")).1 = ProcessResp.success "q" "r" "au2" ∧
      ∃ s', storeGet (processHandler demoActiveStore (some "s1") (some [0]) 6
            (Except.ok "q") (Except.ok "r") (Except.ok "au2")).2.1 "s1" = some s' ∧
        s'.conversationHistory
          = demoActiveSession.conversationHistory ++ [⟨"user", "q"⟩, ⟨"assistant", "r"⟩]) := by
  constructor
  · exact (C2_transcript_appends demoStore "s1" demoSession 5 "au" "q" "r"
      "au2" [0] (by decide) (by decide)).1
  · have h := (C2_transcript_appends demoActiveStore "s1" demoActiveSession 6
      "au" "q" "r" "au2" [0] (by decide) (by decide)).2
    exact h

/-- Claim C3: a stop on a live session deletes its id; a sweep deletes an
over-age id; and on any store in which an id is absent — however it came to
be absent — start, process, history and stop on that id all fail with
SessionNotFound and leave the store unchanged, so a sweeper deletion is
indistinguishable to future callers from an explicit stop. -/
theorem C3_deleted_id_not_found (st : Store) (sid : String)
    (hsid : sid.isEmpty = false) :
    (∀ s, storeGet st sid = some s →
      (stopHandler st (some sid)).1 = StopResp.success ∧
      storeGet (stopHandler st (some sid)).2 sid = none) ∧
    (∀ s now, storeGet st sid = some s → now - s.lastActivity > maxAge →
      storeGet (cleanupOldSessions st now) sid = none) ∧
    (storeGet st sid = none →
      (∀ now sp, startHandler st (some sid) now sp
          = (StartResp.sessionNotFound, st, [])) ∧
      (∀ buf now tr ch sp, processHandler st (some sid) (some buf) now tr ch sp
          = (ProcessResp.sessionNotFound, st, [])) ∧
      historyHandler st (some sid) = (HistoryResp.sessionNotFound, st) ∧
      stopHandler st (some sid) = (StopResp.sessionNotFound, st)) := by
  refine ⟨?_, ?_, ?_⟩
  · intro s hget
    constructor
    · simp [stopHandler, isFalsy, hsid, hget]
    · simp [stopHandler, isFalsy, hsid, hget, storeGet_delete_self]
  · intro s now hget hidle
    simp [storeGet_cleanup, hget, hidle]
  · intro hnone
    refine ⟨?_, ?_, ?_, ?_⟩
    · intro now sp
      simp [startHandler, isFalsy, hsid, hnone]
    · intro buf now tr ch sp
      simp [processHandler, isFalsy, hsid, hnone]
    · simp [historyHandler, isFalsy, hsid, hnone]
    · simp [stopHandler, isFalsy, hsid, hnone]

/-- Witness for C3: stopping the demo session deletes it, and on the empty
store every operation on id s1 reports the session missing. -/
theorem C3_deleted_id_not_found_witness :
    ((stopHandler demoStore (some "s1")).1 = StopResp.success ∧
      storeGet (stopHandler demoStore (some "s1")).2 "s1" = none) ∧
    startHandler emptyStore (some "s1") 3 (Except.ok "a")
      = (StartResp.sessionNotFound, emptyStore, []) ∧
    historyHandler emptyStore (some "s1")
      = (HistoryResp.sessionNotFound, emptyStore) :=
  ⟨(C3_deleted_id_not_found demoStore "s1" (by decide)).1 demoSession (by decide),
   ((C3_deleted_id_not_found emptyStore "s1" (by decide)).2.2 rfl).1 3
     (Except.ok "a"),
   ((C3_deleted_id_not_found emptyStore "s1" (by decide)).2.2 rfl).2.2.1⟩

/-- Claim C4: a session whose idle time has exceeded the 30-minute threshold
at time T is gone after the first sweep at or after T, which on the 5-minute
cadence started at t0 ≤ T occurs within one sweep interval of T; a session
whose idle time at the sweep instant does not exceed the threshold survives
that sweep. -/
theorem C4_sweeper_eviction_bound (st : Store) (sid : String) (s : Session)
    (t0 T : Nat) (hget : storeGet st sid = some s) :
    (T - s.lastActivity > maxAge → t0 ≤ T →
      ∃ k, T ≤ t0 + k * sweepIntervalMs ∧
        t0 + k * sweepIntervalMs ≤ T + sweepIntervalMs ∧
        storeGet (cleanupOldSessions st (t0 + k * sweepIntervalMs)) sid
          = none) ∧
    (T - s.lastActivity ≤ maxAge →
      storeGet (cleanupOldSessions st T) sid = some s) := by
  constructor
  · intro hidle ht0
    have hrw : sweepIntervalMs = 300000 := rfl
    have hmx : maxAge = 1800000 := rfl
    have h1 : T ≤ t0 + ((T - t0) / sweepIntervalMs + 1) * sweepIntervalMs := by
      rw [hrw]
      omega
    have h2 : t0 + ((T - t0) / sweepIntervalMs + 1) * sweepIntervalMs
        ≤ T + sweepIntervalMs := by
      rw [hrw]
      omega
    have h3 : t0 + ((T - t0) / sweepIntervalMs + 1) * sweepIntervalMs
        - s.lastActivity > maxAge := by
      rw [hmx] at hidle ⊢
      omega
    exact ⟨(T - t0) / sweepIntervalMs + 1, h1, h2, by
      simp [storeGet_cleanup, hget, h3]⟩
  · intro hfresh
    rw [storeGet_cleanup, hget]
    simp only
    rw [if_neg (not_lt.mpr hfresh)]

/-- Witness for C4: the demo session (lastActivity 0) is evicted by the first
sweep after time 1800001, and survives a sweep at time 5. -/
theorem C4_sweeper_eviction_bound_witness :
    (∃ k, (1800001 : Nat) ≤ 0 + k * sweepIntervalMs ∧
      0 + k * sweepIntervalMs ≤ 1800001 + sweepIntervalMs ∧
      storeGet (cleanupOldSessions demoStore (0 + k * sweepIntervalMs)) "s1"
        = none) ∧
    storeGet (cleanupOldSessions demoStore 5) "s1" = some demoSession :=
  ⟨(C4_sweeper_eviction_bound demoStore "s1" demoSession 0 1800001
      (by decide)).1 (by decide) (by decide),
   (C4_sweeper_eviction_bound demoStore "s1" demoSession 0 5 (by decide)).2
     (by decide)⟩

/-- Claim C5 counterexample: a history call on a live session is accepted
(it returns success), yet it leaves the store — in particular the session's
`lastActivity`, still 0 — completely unchanged; the handler does not even
read the clock, so `lastActivity` is not updated to the current time. -/
theorem C5_history_no_touch_counterexample :
    (historyHandler demoStore (some "s1")).1 = HistoryResp.success [] ∧
    (historyHandler demoStore (some "s1")).2 = demoStore ∧
    ((historyHandler demoStore (some "s1")).2 "s1").map Session.lastActivity
      = some 0 :=
  ⟨by decide, rfl, by decide⟩

/-- Claim C5 as amended: start and process (once validation passes) set the
session's `lastActivity` to the current time; history leaves the store
unchanged; and expiry is decided from `lastActivity` alone — the sweeper
keeps or deletes the session exactly by `now - lastActivity` against
`maxAge`. -/
theorem C5_lastActivity_updates (st : Store) (sid : String) (s : Session)
    (now : Nat) (hsid : sid.isEmpty = false) (hget : storeGet st sid = some s) :
    (∀ sp, ∃ s', storeGet (startHandler st (some sid) now sp).2.1 sid = some s'
        ∧ s'.lastActivity = now) ∧
    (s.active = true → ∀ buf tr ch sp,
      ∃ s', storeGet (processHandler st (some sid) (some buf) now tr ch sp).2.1
          sid = some s' ∧ s'.lastActivity = now) ∧
    (historyHandler st (some sid)).2 = st ∧
    (∀ n, storeGet (cleanupOldSessions st n) sid
        = if n - s.lastActivity > maxAge then none else some s) := by
  refine ⟨?_, ?_, ?_, ?_⟩
  · intro sp
    refine ⟨{ s with
        active := true
        lastActivity := now
        conversationHistory :=
          s.conversationHistory ++ [⟨"assistant", initialGreeting⟩] }, ?_, rfl⟩
    cases sp with
    | error e => simp [startHandler, isFalsy, hsid, hget, storeGet_set_self]
    | ok audio => simp [startHandler, isFalsy, hsid, hget, storeGet_set_self]
  · intro hact buf tr ch sp
    cases tr with
    | error e =>
        refine ⟨{ s with lastActivity := now }, ?_, rfl⟩
        simp [processHandler, isFalsy, hsid, hget, hact, storeGet_set_self]
    | ok t =>
        cases ch with
        | error e =>
            refine ⟨{ s with
                lastActivity := now
                conversationHistory :=
                  s.conversationHistory ++ [⟨"user", t⟩] }, ?_, rfl⟩
            simp [processHandler, isFalsy, hsid, hget, hact, storeGet_set_self]
        | ok a =>
            cases sp with
            | error e =>
                refine ⟨{ s with
                    lastActivity := now
                    conversationHistory :=
                      (s.conversationHistory ++ [⟨"user", t⟩])
                        ++ [⟨"assistant", a⟩] }, ?_, rfl⟩
                simp [processHandler, isFalsy, hsid, hget, hact,
                  storeGet_set_self]
            | ok v =>
                refine ⟨{ s with
                    lastActivity := now
                    conversationHistory :=
                      (s.conversationHistory ++ [⟨"user", t⟩])
                        ++ [⟨"assistant", a⟩] }, ?_, rfl⟩
                simp [processHandler, isFalsy, hsid, hget, hact,
                  storeGet_set_self]
  · simp [historyHandler, isFalsy, hsid, hget]
  · intro n
    rw [storeGet_cleanup, hget]

/-- Witness for C5 as amended: concrete start, process and history calls. -/
theorem C5_lastActivity_updates_witness :
    (∃ s', storeGet (startHandler demoStore (some "s1") 9
        (Except.ok "a")).2.1 "s1" = some s' ∧ s'.lastActivity = 9) ∧
    (∃ s', storeGet (processHandler demoActiveStore (some "s1") (some [0]) 11
        (Except.ok "t") (Except.ok "r") (Except.ok "v")).2.1 "s1" = some s' ∧
      s'.lastActivity = 11) ∧
    (historyHandler demoStore (some "s1")).2 = demoStore :=
  ⟨(C5_lastActivity_updates demoStore "s1" demoSession 9 (by decide)
      (by decide)).1 (Except.ok "a"),
   (C5_lastActivity_updates demoActiveStore "s1" demoActiveSession 11
      (by decide) (by decide)).2.1 (by decide) [0] (Except.ok "t")
     (Except.ok "r") (Except.ok "v"),
   (C5_lastActivity_updates demoStore "s1" demoSession 9 (by decide)
      (by decide)).2.2.1⟩

/-- Claim C6: when a collaborator fails after a successful transcription, the
already-appended turns are not rolled back — after a chat-completion failure
the user turn stays in the stored transcript and is visible to a subsequent
history call; after a speech-synthesis failure both the user and the
assistant turn stay and are visible. -/
theorem C6_no_rollback (st : Store) (sid : String) (s : Session) (now : Nat)
    (buf : List Nat) (t e : String)
    (hsid : sid.isEmpty = false) (hget : storeGet st sid = some s)
    (hact : s.active = true) :
    (∀ sp,
      (processHandler st (some sid) (some buf) now (Except.ok t)
          (Except.error e) sp).1 = ProcessResp.upstreamError e ∧
      (∃ s', storeGet (processHandler st (some sid) (some buf) now
            (Except.ok t) (Except.error e) sp).2.1 sid = some s' ∧
        s'.conversationHistory = s.conversationHistory ++ [⟨"user", t⟩]) ∧
      (historyHandler (processHandler st (some sid) (some buf) now
            (Except.ok t) (Except.error e) sp).2.1 (some sid)).1
        = HistoryResp.success
            (List.filter (fun msg => msg.role != "system")
              (s.conversationHistory ++ [(⟨"user", t⟩ : Turn)]))) ∧
    (∀ a,
      (processHandler st (some sid) (some buf) now (Except.ok t)
          (Except.ok a) (Except.error e)).1 = ProcessResp.upstreamError e ∧
      (historyHandler (processHandler st (some sid) (some buf) now
            (Except.ok t) (Except.ok a) (Except.error e)).2.1 (some sid)).1
        = HistoryResp.success
            (List.filter (fun msg => msg.role != "system")
              (s.conversationHistory
                ++ [(⟨"user", t⟩ : Turn), (⟨"assistant", a⟩ : Turn)]))) := by
  constructor
  · intro sp
    refine ⟨?_, ⟨{ s with
        lastActivity := now
        conversationHistory := s.conversationHistory ++ [⟨"user", t⟩] },
      ?_, rfl⟩, ?_⟩
    · simp [processHandler, isFalsy, hsid, hget, hact]
    · simp [processHandler, isFalsy, hsid, hget, hact, storeGet_set_self]
    · simp [processHandler, historyHandler, isFalsy, hsid, hget, hact,
        storeGet_set_self]
  · intro a
    constructor
    · simp [processHandler, isFalsy, hsid, hget, hact]
    · simp [processHandler, historyHandler, isFalsy, hsid, hget, hact,
        storeGet_set_self]

/-- Witness for C6: a chat-completion failure on the demo Active session
leaves the user turn observable through history. -/
theorem C6_no_rollback_witness :
    (processHandler demoActiveStore (some "s1") (some [0]) 8 (Except.ok "hi")
        (Except.error "boom") (Except.ok "v")).1
      = ProcessResp.upstreamError "boom" ∧
    (historyHandler (processHandler demoActiveStore (some "s1") (some [0]) 8
        (Except.ok "hi") (Except.error "boom") (Except.ok "v")).2.1
      (some "s1")).1
      = HistoryResp.success
          (List.filter (fun msg => msg.role != "system")
            (demoActiveSession.conversationHistory
              ++ [(⟨"user", "hi"⟩ : Turn)])) :=
  ⟨((C6_no_rollback demoActiveStore "s1" demoActiveSession 8 [0] "hi" "boom"
      (by decide) (by decide) (by decide)).1 (Except.ok "v")).1,
   ((C6_no_rollback demoActiveStore "s1" demoActiveSession 8 [0] "hi" "boom"
      (by decide) (by decide) (by decide)).1 (Except.ok "v")).2.2⟩

/-- Claim C7: history on an existing session returns exactly the transcript
with every system-role turn removed, as role/content pairs, in transcript
order (the result is a sublist of the transcript), and no returned turn has
the system role. -/
theorem C7_history_excludes_system (st : Store) (sid : String) (s : Session)
    (hsid : sid.isEmpty = false) (hget : storeGet st sid = some s) :
    (historyHandler st (some sid)).1
      = HistoryResp.success
          (s.conversationHistory.filter (fun msg => msg.role != "system")) ∧
    (s.conversationHistory.filter (fun msg => msg.role != "system")).Sublist
      s.conversationHistory ∧
    ∀ msg ∈ s.conversationHistory.filter (fun msg => msg.role != "system"),
      msg.role ≠ "system" := by
  refine ⟨?_, List.filter_sublist _, ?_⟩
  · simp [historyHandler, isFalsy, hsid, hget]
  · intro msg hm
    have h := (List.mem_filter.mp hm).2
    simpa using h

/-- Witness for C7: history of the four-turn demo session is the greeting,
the user turn and the assistant turn, the system turn excluded. -/
theorem C7_history_excludes_system_witness :
    (historyHandler demoFullStore (some "s2")).1
      = HistoryResp.success
          [⟨"assistant", initialGreeting⟩, ⟨"user", "q"⟩, ⟨"assistant", "r"⟩] := by
  rw [(C7_history_excludes_system demoFullStore "s2" demoFullSession
    (by decide) (by decide)).1]
  decide

theorem head?_append_of_ne_nil (l l' : List Turn) (h : l ≠ []) :
    (l ++ l').head? = l.head? := by
  cases l with
  | nil => exact absurd rfl h
  | cons a t => rfl

theorem historyHandler_snd (st : Store) (sid : Option String) :
    (historyHandler st sid).2 = st := by
  unfold historyHandler
  cases hv : isFalsy sid with
  | true => simp [hv]
  | false =>
      simp only [hv]
      cases hget : storeGet st (sid.getD "") with
      | none => simp [hget]
      | some sess => simp [hget]

/-- Every session visible after one operation either extends (possibly by
nothing) the transcript the same id held before, or is the fresh session an
init just created, whose transcript is the singleton system turn. -/
theorem applyOp_transcript_shape (st : Store) (op : Op) (id : String)
    (s' : Session) (h : storeGet (applyOp st op) id = some s') :
    (∃ s, storeGet st id = some s ∧
      ∃ tail, s'.conversationHistory = s.conversationHistory ++ tail) ∨
    (∃ g o c f n, op = Op.init g o c f n ∧ id = f ∧
      ∃ cd, s'.conversationHistory = [⟨"system", getPatientPrompt cd⟩]) := by
  cases op with
  | init g o c f n =>
      simp only [applyOp] at h
      cases hv : isFalsy g || isFalsy o with
      | true =>
          simp [initHandler, hv] at h
          exact Or.inl ⟨s', h, [], by simp⟩
      | false =>
          cases c with
          | none =>
              simp [initHandler, hv] at h
              exact Or.inl ⟨s', h, [], by simp⟩
          | some cd =>
              simp [initHandler, hv] at h
              by_cases hid : id = f
              · subst hid
                rw [storeGet_set_self] at h
                refine Or.inr ⟨g, o, some cd, id, n, rfl, rfl, cd, ?_⟩
                rw [← Option.some.inj h]
              · rw [storeGet_set_ne _ _ _ _ hid] at h
                exact Or.inl ⟨s', h, [], by simp⟩
  | start sid n sp =>
      simp only [applyOp] at h
      cases hv : isFalsy sid with
      | true =>
          simp [startHandler, hv] at h
          exact Or.inl ⟨s', h, [], by simp⟩
      | false =>
          cases hget : storeGet st (sid.getD "") with
          | none =>
              simp [startHandler, hv, hget] at h
              exact Or.inl ⟨s', h, [], by simp⟩
          | some sess =>
              have hs : ∀ hh : storeGet (storeSet st (sid.getD "")
                  { sess with
                    active := true
                    lastActivity := n
                    conversationHistory := sess.conversationHistory
                      ++ [⟨"assistant", initialGreeting⟩] }) id = some s',
                  (∃ s, storeGet st id = some s ∧
                    ∃ tail, s'.conversationHistory
                      = s.conversationHistory ++ tail) ∨
                  (∃ g2 o2 c2 f2 n2,
                      Op.start sid n sp = Op.init g2 o2 c2 f2 n2 ∧ id = f2 ∧
                    ∃ cd, s'.conversationHistory
                      = [⟨"system", getPatientPrompt cd⟩]) := by
                intro hh
                by_cases hid : id = sid.getD ""
                · subst hid
                  rw [storeGet_set_self] at hh
                  refine Or.inl ⟨sess, hget,
                    [⟨"assistant", initialGreeting⟩], ?_⟩
                  rw [← Option.some.inj hh]
                · rw [storeGet_set_ne _ _ _ _ hid] at hh
                  exact Or.inl ⟨s', hh, [], by simp⟩
              cases sp with
              | error e =>
                  simp [startHandler, hv, hget] at h
                  exact hs h
              | ok audio =>
                  simp [startHandler, hv, hget] at h
                  exact hs h
  | process sid f n tr ch sp =>
      simp only [applyOp] at h
      cases hv : isFalsy sid with
      | true =>
          simp [processHandler, hv] at h
          exact Or.inl ⟨s', h, [], by simp⟩
      | false =>
          by_cases hf : f = none
          · simp [processHandler, hv, hf] at h
            exact Or.inl ⟨s', h, [], by simp⟩
          · cases hget : storeGet st (sid.getD "") with
            | none =>
                simp [processHandler, hv, hf, hget] at h
                exact Or.inl ⟨s', h, [], by simp⟩
            | some sess =>
                cases hact : sess.active with
                | false =>
                    simp [processHandler, hv, hf, hget, hact] at h
                    exact Or.inl ⟨s', h, [], by simp⟩
                | true =>
                    by_cases hid : id = sid.getD ""
                    · subst hid
                      cases tr with
                      | error e =>
                          simp [processHandler, hv, hf, hget, hact] at h
                          rw [storeGet_set_self] at h
                          refine Or.inl ⟨sess, hget, [], ?_⟩
                          rw [← Option.some.inj h]
                          simp
                      | ok t =>
                          cases ch with
                          | error e =>
                              simp [processHandler, hv, hf, hget, hact] at h
                              rw [storeGet_set_self] at h
                              refine Or.inl ⟨sess, hget, [⟨"user", t⟩], ?_⟩
                              rw [← Option.some.inj h]
                          | ok a =>
                              cases sp with
                              | error e =>
                                  simp [processHandler, hv, hf, hget, hact] at h
                                  rw [storeGet_set_self] at h
                                  refine Or.inl ⟨sess, hget,
                                    [⟨"user", t⟩, ⟨"assistant", a⟩], ?_⟩
                                  rw [← Option.some.inj h]
                              | ok audio =>
                                  simp [processHandler, hv, hf, hget, hact] at h
                                  rw [storeGet_set_self] at h
                                  refine Or.inl ⟨sess, hget,
                                    [⟨"user", t⟩, ⟨"assistant", a⟩], ?_⟩
                                  rw [← Option.some.inj h]
                    · cases tr with
                      | error e =>
                          simp [processHandler, hv, hf, hget, hact] at h
                          simp only [storeGet, storeSet, if_neg hid] at h
                          exact Or.inl ⟨s', h, [], by simp⟩
                      | ok t =>
                          cases ch with
                          | error e =>
                              simp [processHandler, hv, hf, hget, hact] at h
                              simp only [storeGet, storeSet, if_neg hid] at h
                              exact Or.inl ⟨s', h, [], by simp⟩
                          | ok a =>
                              cases sp with
                              | error e =>
                                  simp [processHandler, hv, hf, hget, hact] at h
                                  simp only [storeGet, storeSet,
                                    if_neg hid] at h
                                  exact Or.inl ⟨s', h, [], by simp⟩
                              | ok audio =>
                                  simp [processHandler, hv, hf, hget, hact] at h
                                  simp only [storeGet, storeSet,
                                    if_neg hid] at h
                                  exact Or.inl ⟨s', h, [], by simp⟩
  | stop sid =>
      simp only [applyOp] at h
      cases hv : isFalsy sid with
      | true =>
          simp [stopHandler, hv] at h
          exact Or.inl ⟨s', h, [], by simp⟩
      | false =>
          cases hget : storeGet st (sid.getD "") with
          | none =>
              simp [stopHandler, hv, hget] at h
              exact Or.inl ⟨s', h, [], by simp⟩
          | some sess =>
              simp [stopHandler, hv, hget] at h
              by_cases hid : id = sid.getD ""
              · subst hid
                rw [storeGet_delete_self] at h
                exact absurd h (by simp)
              · simp only [storeGet, storeDelete, if_neg hid] at h
                exact Or.inl ⟨s', h, [], by simp⟩
  | history sid =>
      have hst : applyOp st (Op.history sid) = st := historyHandler_snd st sid
      rw [hst] at h
      exact Or.inl ⟨s', h, [], by simp⟩
  | sweep n =>
      simp only [applyOp] at h
      rw [storeGet_cleanup] at h
      cases hget : storeGet st id with
      | none =>
          rw [hget] at h
          exact absurd h (by simp)
      | some s0 =>
          rw [hget] at h
          by_cases hc : n - s0.lastActivity > maxAge
          · simp only [if_pos hc] at h
            exact absurd h (by simp)
          · simp only [if_neg hc] at h
            refine Or.inl ⟨s0, rfl, [], ?_⟩
            rw [← Option.some.inj h]
            simp

/-- Claim C8: in every store reachable from boot, a live session's transcript
is nonempty and starts with a system turn; init stores exactly the singleton
system-turn transcript; and every operation only ever appends to an existing
session's transcript (assuming the generated init id is fresh, as uuid
collision-freedom guarantees). -/
theorem C8_transcript_invariant :
    (∀ st, Reachable st → ∀ id s, storeGet st id = some s →
      s.conversationHistory ≠ [] ∧
      ∃ c, s.conversationHistory.head? = some ⟨"system", c⟩) ∧
    (∀ st (g o : Option String) (f cd : String) (n : Nat),
      isFalsy g = false → isFalsy o = false →
      storeGet (initHandler st g o (some cd) f n).2 f
        = some { gender := g.getD ""
                 osce_id := o.getD ""
                 conversationHistory := [⟨"system", getPatientPrompt cd⟩]
                 active := false
                 lastActivity := n }) ∧
    (∀ st op id s s', opFreshOk st op → storeGet st id = some s →
      storeGet (applyOp st op) id = some s' →
      ∃ tail, s'.conversationHistory = s.conversationHistory ++ tail) := by
  refine ⟨?_, ?_, ?_⟩
  · intro st hreach
    induction hreach with
    | boot =>
        intro id s h
        exact absurd h (by simp [storeGet, emptyStore])
    | step st op hst ih =>
        intro id s' h
        rcases applyOp_transcript_shape st op id s' h with
          ⟨s0, hget, tail, htail⟩ | ⟨g, o, c, f, n, hop, hid, cd, hhist⟩
        · obtain ⟨hne, c0, hhead⟩ := ih id s0 hget
          constructor
          · rw [htail]
            exact fun hc => hne (List.append_eq_nil.mp hc).1
          · exact ⟨c0, by rw [htail, head?_append_of_ne_nil _ _ hne, hhead]⟩
        · constructor
          · rw [hhist]
            simp
          · exact ⟨getPatientPrompt cd, by rw [hhist]; rfl⟩
  · intro st g o f cd n hg ho
    simp [initHandler, hg, ho, storeGet_set_self]
  · intro st op id s s' hfresh hget h
    rcases applyOp_transcript_shape st op id s' h with
      ⟨s0, hget0, tail, htail⟩ | ⟨g, o, c, f, n, hop, hid, cd, hhist⟩
    · refine ⟨tail, ?_⟩
      rw [htail, Option.some.inj (hget0.symm.trans hget)]
    · subst hop
      subst hid
      simp only [opFreshOk] at hfresh
      rw [hfresh] at hget
      exact absurd hget (by simp)

/-- Witness for C8: the session created by the concrete init operation has a
nonempty transcript headed by a system turn, and a concrete start op only
appends to it. -/
theorem C8_transcript_invariant_witness :
    (demoSession.conversationHistory ≠ [] ∧
      ∃ c, demoSession.conversationHistory.head? = some ⟨"system", c⟩) ∧
    ∃ tail, demoActiveSession.conversationHistory
      = demoSession.conversationHistory ++ tail :=
  ⟨C8_transcript_invariant.1 (applyOp emptyStore demoInitOp)
      (Reachable.step emptyStore demoInitOp Reachable.boot) "s1" demoSession
      (by decide),
   C8_transcript_invariant.2.2 demoStore
      (Op.start (some "s1") 0 (Except.ok "audio")) "s1" demoSession
      demoActiveSession trivial (by decide) (by decide)⟩

/-- Claim C9 counterexample: init accepts gender "Other" — any truthy string
passes the validation `!gender` — and stores it verbatim, so a live session's
gender attribute is not confined to Male/Female. -/
theorem C9_gender_counterexample :
    (initHandler emptyStore (some "Other") (some "osce1")
        (some "demo case description") "s9" 0).1 = InitResp.success "s9" ∧
    (storeGet (initHandler emptyStore (some "Other") (some "osce1")
        (some "demo case description") "s9" 0).2 "s9").map Session.gender
      = some "Other" ∧
    ("Other" : String) ≠ "Male" ∧ ("Other" : String) ≠ "Female" := by
  refine ⟨by decide, by decide, by decide, by decide⟩

/-- Claim C9 as amended: init stores whatever non-falsy gender string the
caller supplies, unvalidated; downstream, the speech-synthesis lookup gives
Male and Female their ElevenLabs voices, falls back to the Male voice for
any other stored value that names no `Object.prototype` member, and for a
value naming an `Object.prototype` member uses the inherited member — not a
voice id — as the voice. -/
theorem C9_gender_stored_verbatim (st : Store) (g o cd f : String) (now : Nat)
    (hg : g.isEmpty = false) (ho : o.isEmpty = false) :
    (storeGet (initHandler st (some g) (some o) (some cd) f now).2 f).map
        Session.gender = some g ∧
    generateSpeechVoiceId "Male" = JsPropValue.voice "pNInz6obpgDQGcFmaJgB" ∧
    generateSpeechVoiceId "Female" = JsPropValue.voice "EXAVITQu4vr4xnSDxMaL" ∧
    (g ≠ "Male" → g ≠ "Female" → g ∉ objectPrototypeKeys →
      generateSpeechVoiceId g = JsPropValue.voice "pNInz6obpgDQGcFmaJgB") ∧
    (g ≠ "Male" → g ≠ "Female" → g ∈ objectPrototypeKeys →
      generateSpeechVoiceId g = JsPropValue.protoMember) := by
  refine ⟨?_, rfl, rfl, ?_, ?_⟩
  · simp [initHandler, isFalsy, hg, ho, storeGet_set_self]
  · intro h1 h2 h3
    simp [generateSpeechVoiceId, ELEVENLABS_VOICES, h1, h2, h3]
  · intro h1 h2 h3
    simp [generateSpeechVoiceId, ELEVENLABS_VOICES, h1, h2, h3]

/-- Witness for C9 as amended: gender "Other" is stored verbatim and its
synthesis voice falls back to the Male voice, while gender "toString" —
an `Object.prototype` member name — yields the inherited member instead. -/
theorem C9_gender_stored_verbatim_witness :
    (storeGet (initHandler emptyStore (some "Other") (some "osce1")
        (some "demo case description") "s9" 0).2 "s9").map Session.gender
      = some "Other" ∧
    generateSpeechVoiceId "Other" = JsPropValue.voice "pNInz6obpgDQGcFmaJgB" ∧
    generateSpeechVoiceId "toString" = JsPropValue.protoMember :=
  ⟨(C9_gender_stored_verbatim emptyStore "Other" "osce1"
      "demo case description" "s9" 0 (by decide) (by decide)).1,
   (C9_gender_stored_verbatim emptyStore "Other" "osce1"
      "demo case description" "s9" 0 (by decide) (by decide)).2.2.2.1
     (by decide) (by decide) (by decide),
   (C9_gender_stored_verbatim emptyStore "toString" "osce1"
      "demo case description" "s9" 0 (by decide) (by decide)).2.2.2.2
     (by decide) (by decide) (by decide)⟩

theorem iterStart_append (sid : String) (now : Nat)
    (hsid : sid.isEmpty = false) :
    ∀ n (st : Store) (s : Session), storeGet st sid = some s →
      ∃ s', storeGet (iterStart sid now n st) sid = some s' ∧
        s'.conversationHistory = s.conversationHistory
          ++ List.replicate n (⟨"assistant", initialGreeting⟩ : Turn) ∧
        (0 < n → s'.active = true) := by
  intro n
  induction n with
  | zero =>
      intro st s hget
      exact ⟨s, by simpa [iterStart] using hget, by simp,
        fun hc => absurd hc (lt_irrefl 0)⟩
  | succ m ih =>
      intro st s hget
      have hstep : storeGet (startOnceStore sid now st) sid = some
          { s with
            active := true
            lastActivity := now
            conversationHistory :=
              s.conversationHistory ++ [⟨"assistant", initialGreeting⟩] } := by
        simp [startOnceStore, startHandler, isFalsy, hsid, hget,
          storeGet_set_self]
      obtain ⟨s', h1, h2, h3⟩ := ih (startOnceStore sid now st) _ hstep
      refine ⟨s', by simpa [iterStart] using h1, ?_, ?_⟩
      · rw [h2]
        simp [List.replicate_succ]
      · intro _
        rcases Nat.eq_zero_or_pos m with h0 | hpos
        · subst h0
          have h1' : storeGet (startOnceStore sid now st) sid = some s' := by
            simpa [iterStart] using h1
          rw [hstep] at h1'
          rw [← Option.some.inj h1']
        · exact h3 hpos

/-- Claim C10: start is accepted on any existing session regardless of its
state — in particular an already-Active session is not rejected; each call
sets active to true and appends one greeting turn, so n successful start
calls append exactly n greeting turns. -/
theorem C10_start_repeatable (st : Store) (sid : String) (s : Session)
    (now : Nat) (hsid : sid.isEmpty = false)
    (hget : storeGet st sid = some s) :
    (∀ audio, (startHandler st (some sid) now (Except.ok audio)).1
        = StartResp.success audio initialGreeting ∧
      ∃ s', storeGet (startHandler st (some sid) now (Except.ok audio)).2.1 sid
          = some s' ∧ s'.active = true ∧
        s'.conversationHistory
          = s.conversationHistory ++ [⟨"assistant", initialGreeting⟩]) ∧
    (∀ n, ∃ s', storeGet (iterStart sid now n st) sid = some s' ∧
      s'.conversationHistory = s.conversationHistory
        ++ List.replicate n (⟨"assistant", initialGreeting⟩ : Turn) ∧
      (0 < n → s'.active = true)) := by
  constructor
  · intro audio
    constructor
    · simp [startHandler, isFalsy, hsid, hget]
    · refine ⟨{ s with
          active := true
          lastActivity := now
          conversationHistory :=
            s.conversationHistory ++ [⟨"assistant", initialGreeting⟩] },
        ?_, rfl, rfl⟩
      simp [startHandler, isFalsy, hsid, hget, storeGet_set_self]
  · intro n
    exact iterStart_append sid now hsid n st s hget

/-- Witness for C10: start succeeds on the already-Active demo session, and
two successive starts on the Initialized demo session append two greetings. -/
theorem C10_start_repeatable_witness :
    ((startHandler demoActiveStore (some "s1") 3 (Except.ok "au")).1
      = StartResp.success "au" initialGreeting) ∧
    (∃ s', storeGet (iterStart "s1" 3 2 demoStore) "s1" = some s' ∧
      s'.conversationHistory = demoSession.conversationHistory
        ++ List.replicate 2 (⟨"assistant", initialGreeting⟩ : Turn) ∧
      (0 < 2 → s'.active = true)) :=
  ⟨((C10_start_repeatable demoActiveStore "s1" demoActiveSession 3 (by decide)
      (by decide)).1 "au").1,
   (C10_start_repeatable demoStore "s1" demoSession 3 (by decide)
      (by decide)).2 2⟩

end Medvora
